import Mathlib

/-!
Verification development for the `confplugs` configuration/plugin loader.

The Python sources (`confplugs/confplugs.py`, `confplugs/utils.py`) are
embedded shallowly:

* YAML values become the inductive `Yaml`; Python exceptions become the
  error type `Err` carried in `Except`; `warnings.warn` calls become an
  accumulated `List Warning`.
* The mutable `_TemplateVariables` dict (entries plus a `used` set) becomes
  the structure `TemplateVariables`, threaded through the recursion in
  state-passing style.  Python dicts preserve insertion order, so entries
  are association lists.
* The external collaborators (the file system behind `open`, and
  `yaml.load`) are parameters of the loader, collected in `LoadCtx`:
  `fs` maps a path to the file's text, `parse` is the YAML parser.
  The external validator `yamale` is embedded as the concrete structural
  check `validBaseF` (transcribed from the `_base_schema` literal in the
  source) and, for per-plugin schemas, as an abstract predicate carried by
  the plugin module.
* Recursion through files and through plugin trees is not structurally
  bounded in the source (it relies on the file system being finite), so the
  recursive loaders take an explicit fuel argument; `Err.outOfFuel` is the
  artifact of that embedding and corresponds to no source behaviour.
  All definitions are structurally recursive so that concrete runs reduce
  by `rfl`/`decide`.
-/

/-- Parsed YAML values: the trees produced by `yaml.load` (scalars,
sequences and mappings; mappings keep insertion order). -/
inductive Yaml where
  | str : String → Yaml
  | int : Int → Yaml
  | bool : Bool → Yaml
  | null : Yaml
  | list : List Yaml → Yaml
  | map : List (String × Yaml) → Yaml

/-- Python exceptions raised by the embedded code.
`templateVariableMissing` is `TemplateVariableMissingException`,
`missingConfigSchema` is `MissingConfigSchemaException`,
`structureError` is the `yamale` failure against `_base_schema`,
`configSchemaError` the `yamale` failure against a plugin's own schema,
`outOfFuel` is an artifact of the fuel-based embedding. -/
inductive Err where
  | templateVariableMissing
  | typeError
  | keyError
  | valueError
  | fileNotFound
  | yamlParseError
  | structureError
  | moduleNotFound
  | configSchemaError
  | missingConfigSchema
  | outOfFuel
deriving DecidableEq

/-- Non-fatal diagnostics issued through `warnings.warn` in the source:
`unusedVar name` is the `RuntimeWarning` of `warn_about_unused_vars`,
`noSchema module` the lenient-mode warning of `_load_plugin`. -/
inductive Warning where
  | unusedVar : String → Warning
  | noSchema : String → Warning
deriving DecidableEq

/-- The `_TemplateVariables` dict: the caller-supplied mapping (insertion
order preserved) plus the set of keys marked used.  `used` is modelled as a
duplicate-free list. -/
structure TemplateVariables where
  entries : List (String × String)
  used : List String
deriving DecidableEq

/-- Key list of the table, in insertion order. -/
def TemplateVariables.keys (tv : TemplateVariables) : List String :=
  tv.entries.map Prod.fst

/-- Method `_TemplateVariables.mark_as_used`: raises `KeyError` when the key
is absent, otherwise adds it to the used set. -/
def TemplateVariables.mark_as_used (tv : TemplateVariables) (k : String) :
    Except Err TemplateVariables :=
  if tv.keys.contains k then
    .ok { tv with used := if tv.used.contains k then tv.used else tv.used ++ [k] }
  else
    .error .keyError

/-- Method `_TemplateVariables.warn_about_unused_vars`: one `RuntimeWarning`
per table entry whose key was never marked used, in table order. -/
def TemplateVariables.warn_about_unused_vars (tv : TemplateVariables) : List Warning :=
  (tv.entries.filter (fun e => !tv.used.contains e.1)).map (fun e => Warning.unusedVar e.1)

/-- Character class `[A-Z_0-9]` of the token regular expression. -/
def isTokenChar (c : Char) : Bool := ('A' ≤ c && c ≤ 'Z') || c == '_' || ('0' ≤ c && c ≤ '9')

/-- Longest prefix of `[A-Z_0-9]` characters and the remainder. -/
def grabRun : List Char → (List Char × List Char)
  | [] => ([], [])
  | c :: rest => if isTokenChar c then
      let p := grabRun rest
      (c :: p.1, p.2)
    else ([], c :: rest)

/-- Scanner for `re.findall` with pattern `\$[A-Z_0-9]+\$`: left-to-right,
non-overlapping; after a match the scan resumes after the closing `$`.
Fuel-indexed for structural recursion; `findTokens` supplies enough fuel. -/
def findTokensF : Nat → List Char → List (List Char)
  | 0, _ => []
  | _, [] => []
  | fuel+1, c :: rest =>
    if c = '$' then
      let p := grabRun rest
      if p.1.isEmpty then findTokensF fuel rest
      else
        match p.2 with
        | '$' :: rest3 => ('$' :: p.1 ++ ['$']) :: findTokensF fuel rest3
        | _ => findTokensF fuel p.2
    else findTokensF fuel rest

/-- All matches of `\$[A-Z_0-9]+\$` in a string, in order (the
`pattern.findall(config_string)` of `_replace_template_variables`). -/
def findTokens (s : String) : List String :=
  (findTokensF s.data.length s.data).map (fun l => ⟨l⟩)

/-- Python `str.replace` on character lists: replaces all non-overlapping
occurrences left to right.  Fuel-indexed; `pyReplace` supplies enough. -/
def pyReplaceF (pat rep : List Char) : Nat → List Char → List Char
  | _, [] => []
  | 0, s => s
  | fuel+1, c :: rest =>
    if pat.isPrefixOf (c :: rest) then rep ++ pyReplaceF pat rep fuel ((c :: rest).drop pat.length)
    else c :: pyReplaceF pat rep fuel rest

/-- Python `str.replace(pat, rep)`.  An empty pattern inserts `rep` before
every character and at the end, as in Python. -/
def pyReplace (s pat rep : String) : String :=
  match pat.data with
  | [] => ⟨rep.data ++ s.data.foldr (fun c acc => c :: (rep.data ++ acc)) []⟩
  | _ => ⟨pyReplaceF pat.data rep.data s.data.length s.data⟩

/-- First loop of `_replace_template_variables`: for each found token in
order, raise `TemplateVariableMissingException` when it is not a key of the
table, otherwise mark it used. -/
def mark_found_vars : List String → TemplateVariables → Except Err TemplateVariables
  | [], tv => .ok tv
  | v :: rest, tv =>
    if tv.keys.contains v then
      match tv.mark_as_used v with
      | .error e => .error e
      | .ok tv' => mark_found_vars rest tv'
    else .error .templateVariableMissing

/-- Body of `_replace_template_variables` for a non-`None` table, given the
token list found by the scanner: every found token must be a key of the
table (else `TemplateVariableMissingException`) and is marked used; then one
sequential `str.replace` pass over all table entries in insertion order. -/
def replace_template_variables_core (found : List String) (s : String)
    (tv : TemplateVariables) : Except Err (String × TemplateVariables) :=
  match mark_found_vars found tv with
  | .error e => .error e
  | .ok tv' => .ok (tv'.entries.foldl (fun acc kv => pyReplace acc kv.1 kv.2) s, tv')

/-- Function `_replace_template_variables(config_string, template_variables)`.
With a `None` table: identity when no token occurs, `TypeError` otherwise
(`var not in None`).  With a table, delegates to the core body above. -/
def replace_template_variables (s : String) (tvo : Option TemplateVariables) :
    Except Err (String × Option TemplateVariables) :=
  let found := findTokens s
  match tvo with
  | none => if found.isEmpty then .ok (s, none) else .error .typeError
  | some tv =>
    match replace_template_variables_core found s tv with
    | .error e => .error e
    | .ok (s', tv') => .ok (s', some tv')

/-- ASCII lowering of one character (Python `str.lower` on the characters
appearing in paths). -/
def lowerChar (c : Char) : Char := if 'A' ≤ c && c ≤ 'Z' then Char.ofNat (c.toNat + 32) else c

/-- Test `str(x).lower().endswith((".yml", ".yaml"))` for a string value.
Non-string YAML values never satisfy the test in the source: `str()` of a
dict, list, number or boolean never ends in `.yml`/`.yaml`. -/
def endsWithYamlSuffix (s : String) : Bool :=
  let l := s.data.map lowerChar
  (".yml".data).isSuffixOf l || (".yaml".data).isSuffixOf l

/-- Path parent (`pathlib.Path(p).parent`), as the prefix before the last
`/` (empty when there is no `/`). -/
def dirOf (p : String) : String :=
  ⟨((p.data.reverse.dropWhile (fun c => c ≠ '/')).drop 1).reverse⟩

/-- Path join `parent_dir / Path(s)` (relative paths only, as in the
example configs). -/
def joinPath (d s : String) : String := if d = "" then s else d ++ "/" ++ s

/-- External collaborators of the loader: the file system behind `open`
(path to file text) and the YAML parser `yaml.load` (text to value, or a
parse failure). -/
structure LoadCtx where
  fs : String → Option String
  parse : String → Except Unit Yaml
  cwd : String

/-- Loop of `_load_config` over the items of a parsed mapping: each value is
loaded by `loadFn` in order, threading the template-variable state. -/
def load_config_items
    (loadFn : Yaml → TemplateVariables → Except Err (Yaml × TemplateVariables)) :
    List (String × Yaml) → TemplateVariables →
      Except Err (List (String × Yaml) × TemplateVariables)
  | [], tv => .ok ([], tv)
  | (k, v) :: rest, tv => do
    let (v', tv') ← loadFn v tv
    let (rest', tv'') ← load_config_items loadFn rest tv'
    .ok ((k, v') :: rest', tv'')

/-- Lines 101-108 of `_load_config`: when the value is a string ending in
`.yml`/`.yaml` (lowercased), read the file relative to `parent_dir`, run
its text through `_replace_template_variables`, and make the file's
directory the parent directory for the children; otherwise leave the value
and the directory alone. -/
def load_file_step (ctx : LoadCtx) (y : Yaml) (tv : TemplateVariables)
    (parentDir : String) : Except Err (Yaml × TemplateVariables × String) :=
  match y with
  | Yaml.str s =>
    if endsWithYamlSuffix s then
      match ctx.fs (joinPath parentDir s) with
      | none => Except.error Err.fileNotFound
      | some text =>
        match replace_template_variables_core (findTokens text) text tv with
        | Except.error e => Except.error e
        | Except.ok (t2, tv2) => Except.ok (Yaml.str t2, tv2, dirOf (joinPath parentDir s))
    else Except.ok (y, tv, parentDir)
  | _ => Except.ok (y, tv, parentDir)

/-- Lines 110-113 of `_load_config`: a string value (file text or inline
fragment) is handed to `yaml.load`; anything else is kept. -/
def parse_step (ctx : LoadCtx) (y1 : Yaml) : Except Err Yaml :=
  match y1 with
  | Yaml.str s2 =>
    match ctx.parse s2 with
    | Except.error _ => Except.error Err.yamlParseError
    | Except.ok v => Except.ok v
  | _ => Except.ok y1

/-- Function `_load_config(config_or_path, template_variables, parent_dir)`:
a string ending in `.yml`/`.yaml` is read from the file system relative to
`parent_dir`, its text run through `_replace_template_variables`, and the
parent directory for children becomes the file's directory; any string is
then parsed by `yaml.load`; a mapping has every value loaded recursively;
everything else is returned unchanged. -/
def load_config_rec (ctx : LoadCtx) :
    Nat → Yaml → TemplateVariables → String → Except Err (Yaml × TemplateVariables)
  | 0, _, _, _ => .error .outOfFuel
  | fuel+1, y, tv, parentDir => do
    let (y1, tv1, childDir) ← load_file_step ctx y tv parentDir
    let y2 ← parse_step ctx y1
    match y2 with
    | Yaml.map kvs => do
      let (kvs2, tvF) ← load_config_items
        (fun v tv' => load_config_rec ctx fuel v tv' childDir) kvs tv1
      pure (Yaml.map kvs2, tvF)
    | _ => pure (y2, tv1)

/-- Public entry point `load_config(config_or_path, template_variables,
parent_dir)`: defaults the directory to the working directory and the table
to an empty dict, wraps the table, loads, then emits the unused-variable
warnings.  Returns the loaded tree, the warnings and the final table. -/
def load_config (ctx : LoadCtx) (fuel : Nat) (y : Yaml)
    (entries : Option (List (String × String))) (parentDir : Option String) :
    Except Err (Yaml × List Warning × TemplateVariables) :=
  let tv0 : TemplateVariables := ⟨entries.getD [], []⟩
  match load_config_rec ctx fuel y tv0 (parentDir.getD ctx.cwd) with
  | .error e => .error e
  | .ok (cfg, tv1) => .ok (cfg, tv1.warn_about_unused_vars, tv1)

/-- Function `parse_template_variables_from_string` of `utils.py`: each
`NAME=VALUE` string becomes the entry `("$NAME$", VALUE)` (split at the
first `=`; a string without `=` raises `ValueError`). -/
def parse_template_variables_from_string (l : List String) :
    Except Err (List (String × String)) :=
  l.mapM (fun s =>
    let p := s.data.span (fun c => c ≠ '=')
    match p.2 with
    | '=' :: v => Except.ok ("$" ++ (⟨p.1⟩ : String) ++ "$", (⟨v⟩ : String))
    | _ => Except.error Err.valueError)

/-- Opaque plugin instance produced by a module's `plugin_init` hook, with
just enough structure for the engine's duck-typed attribute write: a Python
object either accepts attribute assignment or raises `AttributeError`
(`acceptsAttrs`), carries the `__config_yaml__` attribute once set, and may
record the arguments its init hook received (`initConfig`, `children`). -/
inductive PInstance where
  | mk : Bool → Option Yaml → Yaml → List (String × PInstance) → PInstance

/-- Whether the object accepts attribute assignment. -/
def PInstance.acceptsAttrs : PInstance → Bool
  | .mk a _ _ _ => a

/-- The `__config_yaml__` attribute, if it has been set. -/
def PInstance.configYaml : PInstance → Option Yaml
  | .mk _ c _ _ => c

/-- Lines 226-229 of `_load_plugin`: `instance.__config_yaml__ = config`
inside `try ... except AttributeError: pass` — set the attribute when the
object accepts assignment, otherwise leave the instance unchanged. -/
def setConfigYaml (i : PInstance) (c : Yaml) : PInstance :=
  match i with
  | .mk true _ d ch => .mk true (some c) d ch
  | .mk false cy d ch => .mk false cy d ch

/-- A plugin module as `importlib` returns it, per the `PluginModule`
protocol: an optional `plugin_config_schema` (embedded, together with the
external `yamale` engine that compiles it, as a predicate on the config),
an optional `plugin_config_parser`, and the required `plugin_init` hook. -/
structure PluginModule where
  schema : Option (Yaml → Bool)
  configParser : Option (Yaml → Yaml)
  pluginInit : Yaml → List (String × PInstance) → PInstance

/-- The module registry behind `importlib.import_module`: module name to
module, `none` meaning `ModuleNotFoundError`. -/
def Registry := String → Option PluginModule

/-- The `_base_schema` of the source, transcribed from its `yamale`
content literal: a document is a string or a `plugin` mapping; a `plugin`
mapping has a required string `module`, an optional `config` of any shape,
an optional `plugins` mapping whose values are again plugins or strings,
and (yamale strict mode) no other keys.  The `include("plugin")` recursion
of yamale is fuel-indexed here; with fuel at least the nesting depth the
check agrees with yamale. -/
def validBaseF : Nat → Yaml → Bool
  | _, .str _ => true
  | 0, _ => false
  | fuel+1, .map kvs =>
      (match List.lookup "module" kvs with | some (.str _) => true | _ => false)
      && kvs.all (fun kv => kv.1 == "module" || kv.1 == "config" || kv.1 == "plugins")
      && (match List.lookup "plugins" kvs with
          | none => true
          | some (.map pl) => pl.all (fun kv => validBaseF fuel kv.2)
          | some _ => false)
  | _, _ => false

/-- Python `len()` on a YAML value: defined for mappings, sequences and
strings; `none` models the `TypeError` of `len()` on other values. -/
def yamlLen : Yaml → Option Nat
  | .map kvs => some kvs.length
  | .list xs => some xs.length
  | .str s => some s.data.length
  | _ => none

/-- Lines 182-198 of `_load_plugin`: validate the plugin config against the
module's own schema.  A missing `plugin_config_schema` attribute
(`AttributeError`) requires the config to be empty: a non-empty config is
`MissingConfigSchemaException` when validation is required, otherwise only
a warning.  A failing schema is a fatal `yamale` error. -/
def checkSchemaStage (m : PluginModule) (require_validation : Bool)
    (modName : String) (pluginCfg : Yaml) : Except Err (List Warning) :=
  match m.schema with
  | some p => if p pluginCfg then .ok [] else .error .configSchemaError
  | none =>
    match yamlLen pluginCfg with
    | none => .error .typeError
    | some n =>
      if n > 0 then
        if require_validation then .error .missingConfigSchema
        else .ok [Warning.noSchema modName]
      else .ok []

/-- Lines 202-205 of `_load_plugin`: transform the config through the
module's `plugin_config_parser` when the module has one (`AttributeError`
is swallowed otherwise and the config kept as is). -/
def applyConfigTransform (m : PluginModule) (cfg : Yaml) : Yaml :=
  match m.configParser with
  | some p => p cfg
  | none => cfg

/-- Replace the value of an existing key of a mapping in place (the
`config['plugins'][name] = child_config` mutation preserves dict order). -/
def setKey (kvs : List (String × Yaml)) (k : String) (v : Yaml) : List (String × Yaml) :=
  kvs.map (fun kv => if kv.1 == k then (k, v) else kv)

/-- Result of `_load_plugin`: the instance and the (mutated) config dict of
the source's return value, plus the order in which `plugin_init` hooks ran
(`trace`, by module name) and the warnings emitted. -/
structure PluginLoadOut where
  inst : PInstance
  conf : Yaml
  trace : List String
  warns : List Warning

/-- Loop over `config['plugins'].items()` in `_load_plugin`: each child is
loaded in declaration order by `loadFn`; the child instances are collected
under their declared names and the child configs written back. -/
def load_child_plugins (loadFn : Yaml → Except Err PluginLoadOut) :
    List (String × Yaml) →
      Except Err (List (String × PInstance) × List (String × Yaml) × List String × List Warning)
  | [] => .ok ([], [], [], [])
  | (name, conf) :: rest => do
    let r ← loadFn conf
    let (ch, newPl, tr, ws) ← load_child_plugins loadFn rest
    .ok ((name, r.inst) :: ch, (name, r.conf) :: newPl, r.trace ++ tr, r.warns ++ ws)

/-- Function `_load_plugin(config, require_validation)`: validate against
the base schema, import the module, check the plugin schema, transform the
config, load the children depth-first in declaration order, run
`plugin_init` with the transformed config and the named child instances,
and finally try to attach the mutated config dict as `__config_yaml__`.
Non-mapping configs that pass the base schema (bare strings) hit the
`config['module']` subscript and raise `TypeError`, as in Python. -/
def load_plugin_rec (reg : Registry) (require_validation : Bool) :
    Nat → Yaml → Except Err PluginLoadOut
  | 0, _ => .error .outOfFuel
  | fuel+1, cfg =>
    if validBaseF (fuel+1) cfg then
      match cfg with
      | Yaml.map kvs =>
        match List.lookup "module" kvs with
        | some (Yaml.str modName) =>
          match reg modName with
          | none => .error .moduleNotFound
          | some m =>
            let pluginCfg := (List.lookup "config" kvs).getD (Yaml.map [])
            match checkSchemaStage m require_validation modName pluginCfg with
            | .error e => .error e
            | .ok ws1 =>
              let parsedCfg := applyConfigTransform m pluginCfg
              match List.lookup "plugins" kvs with
              | some (Yaml.map pl) =>
                (match load_child_plugins
                    (fun c => load_plugin_rec reg require_validation fuel c) pl with
                 | .error e => .error e
                 | .ok (children, newPl, tr, ws2) =>
                   let newCfg := Yaml.map (setKey kvs "plugins" (Yaml.map newPl))
                   let inst0 := m.pluginInit parsedCfg children
                   .ok ⟨setConfigYaml inst0 newCfg, newCfg, tr ++ [modName], ws1 ++ ws2⟩)
              | some _ => .error .typeError
              | none =>
                let inst0 := m.pluginInit parsedCfg []
                .ok ⟨setConfigYaml inst0 cfg, cfg, [modName], ws1⟩
        | some _ => .error .typeError
        | none => .error .keyError
      | _ => .error .typeError
    else .error .structureError

/-- Public entry point `load_plugin(config_or_path, template_variables,
require_validation)`: `load_config` with the working directory, then
`_load_plugin`; returns the instance only.  The warnings are those of
`load_config` (unused variables) followed by those of `_load_plugin`. -/
def load_plugin (ctx : LoadCtx) (reg : Registry) (fuel : Nat) (y : Yaml)
    (entries : Option (List (String × String))) (require_validation : Bool) :
    Except Err (PInstance × List Warning × List String) :=
  match load_config ctx fuel y entries none with
  | .error e => .error e
  | .ok (cfg, ws, _) =>
    match load_plugin_rec reg require_validation fuel cfg with
    | .error e => .error e
    | .ok r => .ok (r.inst, ws ++ r.warns, r.trace)

/-- Concrete collaborators for the spec's scenario 2: a file system holding
`config.yaml` with one token inside a string value, and the behaviour of
`yaml.load` on the two strings this scenario feeds it (a one-key mapping
document and a plain scalar). -/
def ctxScenario2 : LoadCtx :=
  ⟨fun p => if p = "config.yaml" then some "path: $TEST_VAR$\n" else none,
   fun s => if s = "path: my_output.txt\n" then .ok (.map [("path", .str "my_output.txt")])
            else if s = "my_output.txt" then .ok (.str "my_output.txt")
            else .error (),
   ""⟩

/-- Collaborators for an inline-string document: `yaml.load` behaviour on
the inline fragment `a: $FOO$` (a one-key mapping whose value is the plain
scalar `$FOO$`) and on that scalar itself; the file system is empty. -/
def ctxInline : LoadCtx :=
  ⟨fun _ => none,
   fun s => if s = "a: $FOO$" then .ok (.map [("a", .str "$FOO$")])
            else if s = "$FOO$" then .ok (.str "$FOO$")
            else .error (),
   ""⟩

/-- Collaborators for a nested file reference: `sub.yaml` holds the mapping
`x: 1`. -/
def ctxNested : LoadCtx :=
  ⟨fun p => if p = "sub.yaml" then some "x: 1" else none,
   fun s => if s = "x: 1" then .ok (.map [("x", .int 1)]) else .error (),
   ""⟩

/-- Collaborators exercising YAML scalar resolution: `yaml.load` parses the
plain string `123` as the integer `123`, as PyYAML's resolver does. -/
def ctxIntParse : LoadCtx :=
  ⟨fun _ => none, fun s => if s = "123" then .ok (.int 123) else .error (), ""⟩

/-- A plugin module with no `plugin_config_schema` and no
`plugin_config_parser`, whose init hook records its arguments in the
returned instance (which accepts attribute assignment). -/
def pmRecord : PluginModule := ⟨none, none, fun c ch => .mk true none c ch⟩

/-- A module like `pmRecord` whose instances reject attribute assignment. -/
def pmNoAttr : PluginModule := ⟨none, none, fun c ch => .mk false none c ch⟩

/-- Registry for the missing-schema scenario: only module `pkgZ`. -/
def regPkgZ : Registry := fun n => if n = "pkgZ" then some pmRecord else none

/-- Registry for the parent/children scenario: modules `root`, `leafA`,
`leafB`. -/
def regTree : Registry := fun n =>
  if n = "root" || n = "leafA" || n = "leafB" then some pmRecord else none

/-- Registry with the attribute-rejecting module `na`. -/
def regNoAttr : Registry := fun n => if n = "na" then some pmNoAttr else none

/-- YAML scalars with no reference semantics and no further parsing in the
source: numbers, booleans and null (everything except strings, mappings and
sequences). -/
def isNonStringScalar : Yaml → Bool
  | .int _ => true
  | .bool _ => true
  | .null => true
  | _ => false

theorem mark_as_used_entries {tv tv' : TemplateVariables} {k : String}
    (h : tv.mark_as_used k = .ok tv') : tv'.entries = tv.entries := by
  unfold TemplateVariables.mark_as_used at h
  split at h
  · simp only [Except.ok.injEq] at h
    subst h
    rfl
  · cases h

theorem mark_found_vars_entries : ∀ (found : List String) (tv tv' : TemplateVariables),
    mark_found_vars found tv = .ok tv' → tv'.entries = tv.entries := by
  intro found
  induction found with
  | nil =>
    intro tv tv' h
    unfold mark_found_vars at h
    simp only [Except.ok.injEq] at h
    subst h
    rfl
  | cons a rest ih =>
    intro tv tv' h
    unfold mark_found_vars at h
    split at h
    · split at h
      · cases h
      · rename_i tv2 hm
        rw [ih tv2 tv' h]
        exact mark_as_used_entries hm
    · cases h

theorem rtvc_entries {found : List String} {s : String} {tv : TemplateVariables}
    {res : String × TemplateVariables}
    (h : replace_template_variables_core found s tv = .ok res) :
    res.2.entries = tv.entries := by
  unfold replace_template_variables_core at h
  split at h
  · cases h
  · rename_i tv2 hm
    simp only [Except.ok.injEq] at h
    subst h
    exact mark_found_vars_entries found tv tv2 hm

theorem load_file_step_entries {ctx : LoadCtx} {y : Yaml} {tv : TemplateVariables}
    {d : String} {r : Yaml × TemplateVariables × String}
    (h : load_file_step ctx y tv d = .ok r) : r.2.1.entries = tv.entries := by
  unfold load_file_step at h
  split at h
  · split at h
    · split at h
      · cases h
      · split at h
        · cases h
        · simp only [Except.ok.injEq] at h
          subst h
          exact rtvc_entries (by assumption)
    · simp only [Except.ok.injEq] at h
      subst h
      rfl
  · simp only [Except.ok.injEq] at h
    subst h
    rfl

theorem load_config_items_entries
    (loadFn : Yaml → TemplateVariables → Except Err (Yaml × TemplateVariables))
    (hf : ∀ y tv r, loadFn y tv = .ok r → r.2.entries = tv.entries) :
    ∀ (kvs : List (String × Yaml)) (tv : TemplateVariables)
      (r : List (String × Yaml) × TemplateVariables),
      load_config_items loadFn kvs tv = .ok r → r.2.entries = tv.entries := by
  intro kvs
  induction kvs with
  | nil =>
    intro tv r h
    unfold load_config_items at h
    simp only [Except.ok.injEq] at h
    subst h
    rfl
  | cons kv rest ih =>
    intro tv r h
    obtain ⟨k, v⟩ := kv
    unfold load_config_items at h
    simp only [Bind.bind, Except.bind] at h
    split at h
    · cases h
    · rename_i p1 h1
      split at h
      · cases h
      · rename_i p2 h2
        simp only [Except.ok.injEq] at h
        subst h
        have e1 := hf v tv p1 h1
        have e2 := ih p1.2 p2 h2
        simp only at e1 e2 ⊢
        rw [e2, e1]

theorem load_config_rec_entries (ctx : LoadCtx) :
    ∀ (fuel : Nat) (y : Yaml) (tv : TemplateVariables) (d : String)
      (r : Yaml × TemplateVariables),
      load_config_rec ctx fuel y tv d = .ok r → r.2.entries = tv.entries := by
  intro fuel
  induction fuel with
  | zero =>
    intro y tv d r h
    unfold load_config_rec at h
    cases h
  | succ n ih =>
    intro y tv d r h
    unfold load_config_rec at h
    simp only [Bind.bind, Except.bind] at h
    split at h
    · cases h
    · rename_i p1 h1
      obtain ⟨y1, tv1, childDir⟩ := p1
      have e1 : tv1.entries = tv.entries := load_file_step_entries h1
      split at h
      · cases h
      · rename_i y2 h2
        split at h <;>
          first
          | (simp only [pure, Except.pure, Except.ok.injEq] at h
             subst h
             exact e1)
          | skip
        rename_i kvs
        split at h
        · cases h
        · rename_i p2 h3
          simp only [pure, Except.pure, Except.ok.injEq] at h
          subst h
          have e2 := load_config_items_entries _
            (fun y' tv' r' hr' => ih y' tv' childDir r' hr') kvs tv1 p2 h3
          simp only at e2 ⊢
          rw [e2, e1]

theorem mark_found_vars_missing : ∀ (found : List String) (tv : TemplateVariables) (t : String),
    t ∈ found → t ∉ tv.keys →
    mark_found_vars found tv = .error .templateVariableMissing := by
  intro found
  induction found with
  | nil =>
    intro tv t ht _
    cases ht
  | cons a rest ih =>
    intro tv t ht hm
    unfold mark_found_vars
    by_cases hc : tv.keys.contains a = true
    · simp only [hc, if_pos]
      have hmark : tv.mark_as_used a
          = .ok { tv with used := if tv.used.contains a then tv.used else tv.used ++ [a] } := by
        unfold TemplateVariables.mark_as_used
        rw [if_pos hc]
      rw [hmark]
      rcases List.mem_cons.mp ht with rfl | hr
      · exact absurd (List.mem_of_elem_eq_true hc) hm
      · exact ih _ t hr hm
    · rw [if_neg hc]

theorem rtvc_missing {found : List String} {s : String} {tv : TemplateVariables} {t : String}
    (ht : t ∈ found) (hm : t ∉ tv.keys) :
    replace_template_variables_core found s tv = .error .templateVariableMissing := by
  unfold replace_template_variables_core
  rw [mark_found_vars_missing found tv t ht hm]

theorem warn_unused_spec (tv : TemplateVariables) (hnd : tv.keys.Nodup) (k : String)
    (hk : k ∈ tv.keys) :
    (k ∉ tv.used → (tv.warn_about_unused_vars).count (Warning.unusedVar k) = 1) ∧
    (k ∈ tv.used → Warning.unusedVar k ∉ tv.warn_about_unused_vars) := by
  have hinj : Function.Injective Warning.unusedVar := by
    intro a b hab
    cases hab
    rfl
  have hrw : tv.warn_about_unused_vars
      = ((tv.entries.filter (fun e => !tv.used.contains e.1)).map Prod.fst).map
          Warning.unusedVar := by
    unfold TemplateVariables.warn_about_unused_vars
    rw [List.map_map]
    rfl
  constructor
  · intro hu
    rw [hrw, List.count_map_of_injective _ _ hinj]
    apply List.count_eq_one_of_mem
    · exact ((List.filter_sublist _).map Prod.fst).nodup hnd
    · obtain ⟨e, he, hek⟩ := List.mem_map.mp hk
      apply List.mem_map.mpr
      refine ⟨e, List.mem_filter.mpr ⟨he, ?_⟩, hek⟩
      subst hek
      simpa using hu
  · intro hu hmem
    rw [hrw] at hmem
    obtain ⟨k', hk', hkk⟩ := List.mem_map.mp hmem
    have : k' = k := hinj hkk
    subst this
    obtain ⟨e, he, hek⟩ := List.mem_map.mp hk'
    have := (List.mem_filter.mp he).2
    subst hek
    simp at this
    exact this hu

theorem setConfigYaml_of_acceptsAttrs {i : PInstance} {c : Yaml}
    (h : i.acceptsAttrs = true) : (setConfigYaml i c).configYaml = some c := by
  cases i with
  | mk a cy d ch =>
    cases a with
    | true => rfl
    | false => cases h

theorem setConfigYaml_of_not_acceptsAttrs {i : PInstance} {c : Yaml}
    (h : i.acceptsAttrs = false) : setConfigYaml i c = i := by
  cases i with
  | mk a cy d ch =>
    cases a with
    | true => cases h
    | false => rfl

/-- C1 (counterexample): the spec's scenario 2 with a table keyed by the
bare placeholder name (`{"TEST_VAR": "my_output.txt"}`, no `$` delimiters)
does not succeed: `_replace_template_variables` looks the found token
`$TEST_VAR$` (with delimiters) up among the table keys, so the load raises
`TemplateVariableMissingException` instead of resolving the document. -/
theorem c1_bare_keys_counterexample :
    findTokens "path: $TEST_VAR$\n" = ["$TEST_VAR$"] ∧
    load_config ctxScenario2 10 (.str "config.yaml")
        (some [("TEST_VAR", "my_output.txt")]) none
      = .error .templateVariableMissing :=
  ⟨rfl, rfl⟩

/-- C1 (amended): scenario 2 behaves as claimed once the table is keyed by
the delimited token `$TEST_VAR$` (the format `utils.py`'s
`parse_template_variables_from_string` produces and `example/main.py`
passes): the load succeeds, the resolved `path` equals `my_output.txt`, the
entry is marked used and no unused-variable warning is emitted. -/
theorem c1_delimited_keys_scenario :
    parse_template_variables_from_string ["TEST_VAR=my_output.txt"]
      = .ok [("$TEST_VAR$", "my_output.txt")] ∧
    load_config ctxScenario2 10 (.str "config.yaml")
        (some [("$TEST_VAR$", "my_output.txt")]) none
      = .ok (.map [("path", .str "my_output.txt")], [],
             ⟨[("$TEST_VAR$", "my_output.txt")], ["$TEST_VAR$"]⟩) :=
  ⟨rfl, rfl⟩

/-- C2 (counterexample): a document given as an inline string is parsed
without any substitution pass: with an empty table and the inline document
`a: $FOO$` (which contains the token `$FOO$`), the load succeeds and the
returned tree still contains the unsubstituted token, instead of failing
with `TemplateVariableMissingException`. -/
theorem c2_inline_string_counterexample :
    findTokens "a: $FOO$" = ["$FOO$"] ∧
    load_config ctxInline 10 (.str "a: $FOO$") (some []) none
      = .ok (.map [("a", .str "$FOO$")], [], ⟨[], []⟩) :=
  ⟨rfl, rfl⟩

/-- C2 (amended): for documents read through a file reference the claim
holds: any token found in the file's text that is not a key of the table
aborts the load with `TemplateVariableMissingException`, before the text
reaches the YAML parser. -/
theorem c2_missing_variable_file_ref (ctx : LoadCtx) (fuel : Nat)
    (s text t : String) (tv : TemplateVariables) (d : String)
    (hsuf : endsWithYamlSuffix s = true)
    (hfs : ctx.fs (joinPath d s) = some text)
    (hft : t ∈ findTokens text)
    (hmiss : t ∉ tv.keys) :
    load_config_rec ctx (fuel+1) (Yaml.str s) tv d = .error .templateVariableMissing := by
  have hstep : load_file_step ctx (Yaml.str s) tv d = .error .templateVariableMissing := by
    unfold load_file_step
    dsimp only
    rw [if_pos hsuf]
    simp only [hfs]
    rw [rtvc_missing hft hmiss]
  unfold load_config_rec
  rw [hstep]
  rfl

/-- Witness for C2 (amended): the scenario-2 file with an empty table. -/
theorem c2_missing_variable_file_ref_witness :
    load_config_rec ctxScenario2 5 (Yaml.str "config.yaml") ⟨[], []⟩ ""
      = .error .templateVariableMissing :=
  c2_missing_variable_file_ref ctxScenario2 4 "config.yaml" "path: $TEST_VAR$\n"
    "$TEST_VAR$" ⟨[], []⟩ "" (by decide) rfl (by decide) (by decide)

/-- C3 (counterexample): `_load_config` recurses only into mappings.  The
same file reference `sub.yaml` is expanded when it is a mapping value but
left untouched when it is an element of a sequence: the sequence element is
not a recursion site, contradicting the claimed mapping/sequence symmetry. -/
theorem c3_sequence_counterexample :
    load_config ctxNested 10 (.map [("k", .str "sub.yaml")]) (some []) none
      = .ok (.map [("k", .map [("x", .int 1)])], [], ⟨[], []⟩) ∧
    load_config ctxNested 10 (.map [("k", .list [.str "sub.yaml"])]) (some []) none
      = .ok (.map [("k", .list [.str "sub.yaml"])], [], ⟨[], []⟩) :=
  ⟨rfl, rfl⟩

/-- C3 (amended): an already-parsed sequence passed to `_load_config` is
returned exactly as given, whatever its elements, table or directory: the
loader never recurses into sequence elements. -/
theorem c3_sequences_pass_through (ctx : LoadCtx) (fuel : Nat) (xs : List Yaml)
    (tv : TemplateVariables) (d : String) :
    load_config_rec ctx (fuel+1) (Yaml.list xs) tv d = .ok (Yaml.list xs, tv) := rfl

/-- C4 (counterexample): substitution is not one pass over the original
token set.  With the table mapping `$A$` to the string `$B$` and `$B$` to
`x` (in that insertion order) and the text `$A$`, a single pass would give
`$B$`; the sequential `str.replace` loop of `_replace_template_variables`
re-substitutes the freshly inserted `$B$` and yields `x`. -/
theorem c4_resubstitution_counterexample :
    replace_template_variables "$A$" (some ⟨[("$A$", "$B$"), ("$B$", "x")], []⟩)
      = .ok ("x", some ⟨[("$A$", "$B$"), ("$B$", "x")], ["$A$"]⟩) ∧
    ("x" : String) ≠ "$B$" :=
  ⟨rfl, by decide⟩

/-- C4 (amended): substitution is deterministic but applies the table
entries sequentially in insertion order, so a replacement value containing
token syntax is re-substituted exactly when its token's entry comes later
in the table: with `$B$` after `$A$` the text `$A$` becomes `x`, with `$B$`
before `$A$` it stays `$B$`. -/
theorem c4_substitution_order :
    replace_template_variables "$A$" (some ⟨[("$A$", "$B$"), ("$B$", "x")], []⟩)
      = .ok ("x", some ⟨[("$A$", "$B$"), ("$B$", "x")], ["$A$"]⟩) ∧
    replace_template_variables "$A$" (some ⟨[("$B$", "x"), ("$A$", "$B$")], []⟩)
      = .ok ("$B$", some ⟨[("$B$", "x"), ("$A$", "$B$")], ["$A$"]⟩) :=
  ⟨rfl, rfl⟩

/-- C5 (counterexample): with zero tokens the replacement loop still runs
over every table entry, so a key occurring as a bare substring of the text
is replaced: the token-free text `hello` with table `{"ell": "ipse"}` comes
back as `hipseo`, not unchanged. -/
theorem c5_bare_substring_counterexample :
    findTokens "hello" = [] ∧
    replace_template_variables "hello" (some ⟨[("ell", "ipse")], []⟩)
      = .ok ("hipseo", some ⟨[("ell", "ipse")], []⟩) ∧
    ("hipseo" : String) ≠ "hello" :=
  ⟨rfl, rfl, by decide⟩

/-- C5 (amended): on a text with zero tokens, substitution never fails and
marks no entry used (the table comes back unchanged); the text itself is
returned unchanged for a `None` or empty table, while table keys occurring
as bare substrings are still replaced by the entries loop. -/
theorem c5_no_tokens (s : String) (tvo : Option TemplateVariables)
    (h : findTokens s = []) :
    (∃ s', replace_template_variables s tvo = .ok (s', tvo)) ∧
    (replace_template_variables s none = .ok (s, none)) ∧
    (∀ tv, tvo = some tv → tv.entries = [] →
      replace_template_variables s tvo = .ok (s, some tv)) := by
  refine ⟨?_, ?_, ?_⟩
  · cases tvo with
    | none =>
      refine ⟨s, ?_⟩
      simp [replace_template_variables, h]
    | some tv =>
      refine ⟨tv.entries.foldl (fun acc kv => pyReplace acc kv.1 kv.2) s, ?_⟩
      simp [replace_template_variables, replace_template_variables_core, mark_found_vars, h]
  · simp [replace_template_variables, h]
  · intro tv htv he
    subst htv
    simp [replace_template_variables, replace_template_variables_core, mark_found_vars, h, he]

/-- Witness for C5 (amended): the token-free text `plain` with a one-entry
delimited-key table. -/
theorem c5_no_tokens_witness :
    (∃ s', replace_template_variables "plain" (some ⟨[("$X$", "y")], []⟩)
      = .ok (s', some ⟨[("$X$", "y")], []⟩)) ∧
    (replace_template_variables "plain" none = .ok ("plain", none)) ∧
    (∀ tv, some ⟨[("$X$", "y")], []⟩ = some tv → tv.entries = [] →
      replace_template_variables "plain" (some ⟨[("$X$", "y")], []⟩)
        = .ok ("plain", some tv)) :=
  c5_no_tokens "plain" (some ⟨[("$X$", "y")], []⟩) (by decide)

/-- C6 (counterexample): a string scalar inside an already-parsed document
is not passed through: `_load_config` hands every string to `yaml.load`, so
the string `"123"` under key `a` comes back as the integer `123`, a
different value. -/
theorem c6_string_scalar_counterexample :
    load_config ctxIntParse 10 (.map [("a", .str "123")]) (some []) none
      = .ok (.map [("a", .int 123)], [], ⟨[], []⟩) ∧
    Yaml.int 123 ≠ Yaml.str "123" :=
  ⟨rfl, fun hc => Yaml.noConfusion hc⟩

/-- C6 (amended): non-string scalars (numbers, booleans, null) pass through
`_load_config` unchanged; only strings are re-parsed as YAML fragments. -/
theorem c6_nonstring_scalars_pass_through (ctx : LoadCtx) (fuel : Nat) (v : Yaml)
    (tv : TemplateVariables) (d : String) (h : isNonStringScalar v = true) :
    load_config_rec ctx (fuel+1) v tv d = .ok (v, tv) := by
  cases v with
  | int n => rfl
  | bool b => rfl
  | null => rfl
  | str s => exact Bool.noConfusion h
  | list xs => exact Bool.noConfusion h
  | map kvs => exact Bool.noConfusion h

/-- Witness for C6 (amended): the integer scalar `7`. -/
theorem c6_nonstring_scalars_witness :
    load_config_rec ctxIntParse 3 (Yaml.int 7) ⟨[], []⟩ "" = .ok (Yaml.int 7, ⟨[], []⟩) :=
  c6_nonstring_scalars_pass_through ctxIntParse 2 (Yaml.int 7) ⟨[], []⟩ "" (by decide)

/-- C7 (confirmed): for a node whose module exposes no config schema,
`_load_plugin` raises `MissingConfigSchemaException` on a non-empty config
under `require_validation` (before anything is instantiated), only warns
and still builds the instance from the raw config in lenient mode, and
proceeds silently in both modes when the config is empty. -/
theorem c7_missing_schema_modes (reg : Registry) (m : PluginModule) (modName : String)
    (kvs : List (String × Yaml)) (fuel : Nat) (pc : Yaml) (n : Nat)
    (hreg : reg modName = some m) (hschema : m.schema = none)
    (hvb : validBaseF (fuel+1) (.map kvs) = true)
    (hmod : List.lookup "module" kvs = some (.str modName))
    (hpc : (List.lookup "config" kvs).getD (.map []) = pc)
    (hlen : yamlLen pc = some n) :
    (0 < n → load_plugin_rec reg true (fuel+1) (.map kvs) = .error .missingConfigSchema) ∧
    (0 < n → List.lookup "plugins" kvs = none → m.configParser = none →
      load_plugin_rec reg false (fuel+1) (.map kvs)
        = .ok ⟨setConfigYaml (m.pluginInit pc []) (.map kvs), .map kvs, [modName],
               [Warning.noSchema modName]⟩) ∧
    (n = 0 → List.lookup "plugins" kvs = none →
      ∀ rv : Bool, load_plugin_rec reg rv (fuel+1) (.map kvs)
        = .ok ⟨setConfigYaml (m.pluginInit (applyConfigTransform m pc) []) (.map kvs),
               .map kvs, [modName], []⟩) := by
  refine ⟨?_, ?_, ?_⟩
  · intro hn
    unfold load_plugin_rec
    rw [if_pos hvb]
    dsimp only
    rw [hmod]
    dsimp only
    rw [hreg]
    dsimp only
    rw [hpc]
    unfold checkSchemaStage
    rw [hschema]
    dsimp only
    rw [hlen]
    dsimp only
    rw [if_pos hn]
    rfl
  · intro hn hnp hncp
    unfold load_plugin_rec
    rw [if_pos hvb]
    dsimp only
    rw [hmod]
    dsimp only
    rw [hreg]
    dsimp only
    rw [hpc]
    unfold checkSchemaStage
    rw [hschema]
    dsimp only
    rw [hlen]
    dsimp only
    rw [if_pos hn]
    rw [hnp]
    unfold applyConfigTransform
    rw [hncp]
    rfl
  · intro hn hnp rv
    subst hn
    unfold load_plugin_rec
    rw [if_pos hvb]
    dsimp only
    rw [hmod]
    dsimp only
    rw [hreg]
    dsimp only
    rw [hpc]
    unfold checkSchemaStage
    rw [hschema]
    dsimp only
    rw [hlen]
    dsimp only
    rw [hnp]
    rfl

/-- Witness for C7: the spec's scenario 4, module `pkgZ` without schema and
config `{extra: 1}`, run in both modes at concrete fuel. -/
theorem c7_missing_schema_modes_witness :
    load_plugin_rec regPkgZ true 5
        (.map [("module", .str "pkgZ"), ("config", .map [("extra", .int 1)])])
      = .error .missingConfigSchema ∧
    load_plugin_rec regPkgZ false 5
        (.map [("module", .str "pkgZ"), ("config", .map [("extra", .int 1)])])
      = .ok ⟨setConfigYaml (pmRecord.pluginInit (.map [("extra", .int 1)]) [])
               (.map [("module", .str "pkgZ"), ("config", .map [("extra", .int 1)])]),
             .map [("module", .str "pkgZ"), ("config", .map [("extra", .int 1)])],
             ["pkgZ"], [Warning.noSchema "pkgZ"]⟩ := by
  have h := c7_missing_schema_modes regPkgZ pmRecord "pkgZ"
    [("module", .str "pkgZ"), ("config", .map [("extra", .int 1)])] 4
    (.map [("extra", .int 1)]) 1 rfl rfl (by decide) rfl rfl rfl
  exact ⟨h.1 (by decide), h.2.1 (by decide) rfl rfl⟩

/-- C8 (confirmed): after a successful top-level `load_config`, the warning
list contains exactly one unused-variable warning for each table entry
whose key was never marked used, and none for keys that were marked used
(and these are warnings in the returned diagnostic list, not errors). -/
theorem c8_unused_variable_warnings (ctx : LoadCtx) (fuel : Nat) (y : Yaml)
    (entries : List (String × String)) (d : Option String)
    (hnd : (entries.map Prod.fst).Nodup)
    (cfg : Yaml) (ws : List Warning) (tv1 : TemplateVariables)
    (h : load_config ctx fuel y (some entries) d = .ok (cfg, ws, tv1))
    (k : String) (hk : k ∈ entries.map Prod.fst) :
    (k ∉ tv1.used → ws.count (Warning.unusedVar k) = 1) ∧
    (k ∈ tv1.used → Warning.unusedVar k ∉ ws) := by
  unfold load_config at h
  dsimp only at h
  split at h
  · cases h
  · rename_i cfg2 tv2 hp
    simp only [Except.ok.injEq, Prod.mk.injEq] at h
    obtain ⟨hcfg, hws, htv⟩ := h
    have hent : tv2.entries = entries := by
      have := load_config_rec_entries ctx fuel y ⟨entries, []⟩
        (d.getD ctx.cwd) (cfg2, tv2) hp
      simpa using this
    have hkeys : tv2.keys = entries.map Prod.fst := by
      unfold TemplateVariables.keys
      rw [hent]
    rw [← htv, ← hws]
    exact warn_unused_spec tv2 (by rw [hkeys]; exact hnd) k (by rw [hkeys]; exact hk)

/-- Witness for C8: scenario 2's file with one used and one unused entry;
the unused key gets exactly one warning. -/
theorem c8_unused_variable_warnings_witness :
    ("$UNUSED$" ∉ (⟨[("$TEST_VAR$", "my_output.txt"), ("$UNUSED$", "nope")],
        ["$TEST_VAR$"]⟩ : TemplateVariables).used →
      ([Warning.unusedVar "$UNUSED$"] : List Warning).count (Warning.unusedVar "$UNUSED$") = 1) ∧
    ("$UNUSED$" ∈ (⟨[("$TEST_VAR$", "my_output.txt"), ("$UNUSED$", "nope")],
        ["$TEST_VAR$"]⟩ : TemplateVariables).used →
      Warning.unusedVar "$UNUSED$" ∉ ([Warning.unusedVar "$UNUSED$"] : List Warning)) :=
  c8_unused_variable_warnings ctxScenario2 10 (.str "config.yaml")
    [("$TEST_VAR$", "my_output.txt"), ("$UNUSED$", "nope")] none (by decide)
    (.map [("path", .str "my_output.txt")]) [Warning.unusedVar "$UNUSED$"]
    ⟨[("$TEST_VAR$", "my_output.txt"), ("$UNUSED$", "nope")], ["$TEST_VAR$"]⟩
    rfl "$UNUSED$" (by decide)

/-- C9 (confirmed): `_load_plugin` resolves a node's declared children
depth-first in declaration order before the parent: for a node with
children `[(n1, c1), (n2, c2)]`, the init-hook trace is `c1`'s whole trace,
then `c2`'s, then the parent's own module, and the parent's init hook
receives the two child instances under their declared names. -/
theorem c9_children_before_parent (reg : Registry) (rv : Bool) (fuel : Nat)
    (kvs : List (String × Yaml)) (modName : String) (m : PluginModule)
    (ws1 : List Warning) (n1 n2 : String) (c1 c2 : Yaml) (r1 r2 : PluginLoadOut)
    (hvb : validBaseF (fuel+1) (.map kvs) = true)
    (hmod : List.lookup "module" kvs = some (.str modName))
    (hreg : reg modName = some m)
    (hcs : checkSchemaStage m rv modName ((List.lookup "config" kvs).getD (.map []))
      = .ok ws1)
    (hpl : List.lookup "plugins" kvs = some (.map [(n1, c1), (n2, c2)]))
    (h1 : load_plugin_rec reg rv fuel c1 = .ok r1)
    (h2 : load_plugin_rec reg rv fuel c2 = .ok r2) :
    load_plugin_rec reg rv (fuel+1) (.map kvs)
      = .ok ⟨setConfigYaml
               (m.pluginInit
                 (applyConfigTransform m ((List.lookup "config" kvs).getD (.map [])))
                 [(n1, r1.inst), (n2, r2.inst)])
               (.map (setKey kvs "plugins" (.map [(n1, r1.conf), (n2, r2.conf)]))),
             .map (setKey kvs "plugins" (.map [(n1, r1.conf), (n2, r2.conf)])),
             r1.trace ++ r2.trace ++ [modName],
             ws1 ++ r1.warns ++ r2.warns⟩ := by
  have hch : load_child_plugins (fun c => load_plugin_rec reg rv fuel c) [(n1, c1), (n2, c2)]
      = .ok ([(n1, r1.inst), (n2, r2.inst)], [(n1, r1.conf), (n2, r2.conf)],
             r1.trace ++ (r2.trace ++ []), r1.warns ++ (r2.warns ++ [])) := by
    simp only [load_child_plugins, h1, h2, Bind.bind, Except.bind]
  unfold load_plugin_rec
  rw [if_pos hvb]
  dsimp only
  rw [hmod]
  dsimp only
  rw [hreg]
  dsimp only
  rw [hcs]
  dsimp only
  rw [hpl]
  dsimp only
  rw [hch]
  dsimp only
  simp only [List.append_nil, List.append_assoc]

/-- Witness for C9: the spec's scenario 5 extended to two children `a`
(module `leafA`) and `b` (module `leafB`) under a `root` node: the trace is
`leafA`, `leafB`, `root` and the children reach `root`'s init hook under
their declared names. -/
theorem c9_children_before_parent_witness :
    load_plugin_rec regTree true 5
        (.map [("module", .str "root"),
               ("plugins", .map [("a", .map [("module", .str "leafA")]),
                                 ("b", .map [("module", .str "leafB")])])])
      = .ok ⟨.mk true
               (some (.map [("module", .str "root"),
                            ("plugins", .map [("a", .map [("module", .str "leafA")]),
                                              ("b", .map [("module", .str "leafB")])])]))
               (.map [])
               [("a", .mk true (some (.map [("module", .str "leafA")])) (.map []) []),
                ("b", .mk true (some (.map [("module", .str "leafB")])) (.map []) [])],
             .map [("module", .str "root"),
                   ("plugins", .map [("a", .map [("module", .str "leafA")]),
                                     ("b", .map [("module", .str "leafB")])])],
             ["leafA", "leafB", "root"], []⟩ :=
  c9_children_before_parent regTree true 4
    [("module", .str "root"),
     ("plugins", .map [("a", .map [("module", .str "leafA")]),
                       ("b", .map [("module", .str "leafB")])])]
    "root" pmRecord [] "a" "b"
    (.map [("module", .str "leafA")]) (.map [("module", .str "leafB")])
    ⟨.mk true (some (.map [("module", .str "leafA")])) (.map []) [],
     .map [("module", .str "leafA")], ["leafA"], []⟩
    ⟨.mk true (some (.map [("module", .str "leafB")])) (.map []) [],
     .map [("module", .str "leafB")], ["leafB"], []⟩
    (by decide) rfl rfl rfl rfl rfl rfl

/-- C10 (confirmed): after a node's init hook returns, `_load_plugin`
attaches the node's fully resolved config dict to the instance as
`__config_yaml__` when the instance accepts attribute assignment, and
silently returns the instance unchanged when it does not; the load
succeeds either way. -/
theorem c10_config_yaml_attribute (reg : Registry) (rv : Bool) (fuel : Nat)
    (kvs : List (String × Yaml)) (modName : String) (m : PluginModule)
    (pc : Yaml) (ws1 : List Warning)
    (hvb : validBaseF (fuel+1) (.map kvs) = true)
    (hmod : List.lookup "module" kvs = some (.str modName))
    (hreg : reg modName = some m)
    (hpc : (List.lookup "config" kvs).getD (.map []) = pc)
    (hcs : checkSchemaStage m rv modName pc = .ok ws1)
    (hpl : List.lookup "plugins" kvs = none) :
    ∃ out : PluginLoadOut,
      load_plugin_rec reg rv (fuel+1) (.map kvs) = .ok out ∧
      out.inst = setConfigYaml (m.pluginInit (applyConfigTransform m pc) []) (.map kvs) ∧
      ((m.pluginInit (applyConfigTransform m pc) []).acceptsAttrs = true →
        out.inst.configYaml = some (.map kvs)) ∧
      ((m.pluginInit (applyConfigTransform m pc) []).acceptsAttrs = false →
        out.inst = m.pluginInit (applyConfigTransform m pc) []) := by
  refine ⟨⟨setConfigYaml (m.pluginInit (applyConfigTransform m pc) []) (.map kvs),
           .map kvs, [modName], ws1⟩, ?_, rfl, ?_, ?_⟩
  · unfold load_plugin_rec
    rw [if_pos hvb]
    dsimp only
    rw [hmod]
    dsimp only
    rw [hreg]
    dsimp only
    rw [hpc]
    rw [hcs]
    dsimp only
    rw [hpl]
  · intro ha
    exact setConfigYaml_of_acceptsAttrs ha
  · intro ha
    exact setConfigYaml_of_not_acceptsAttrs ha

/-- Witness for C10: module `na` whose instances reject attribute
assignment; the instance comes back without `__config_yaml__`. -/
theorem c10_config_yaml_attribute_witness :
    ∃ out : PluginLoadOut,
      load_plugin_rec regNoAttr true 3 (.map [("module", .str "na")]) = .ok out ∧
      out.inst = setConfigYaml (pmNoAttr.pluginInit (applyConfigTransform pmNoAttr (.map [])) [])
        (.map [("module", .str "na")]) ∧
      ((pmNoAttr.pluginInit (applyConfigTransform pmNoAttr (.map [])) []).acceptsAttrs = true →
        out.inst.configYaml = some (.map [("module", .str "na")])) ∧
      ((pmNoAttr.pluginInit (applyConfigTransform pmNoAttr (.map [])) []).acceptsAttrs = false →
        out.inst = pmNoAttr.pluginInit (applyConfigTransform pmNoAttr (.map [])) []) :=
  c10_config_yaml_attribute regNoAttr true 2 [("module", .str "na")] "na" pmNoAttr
    (.map []) [] (by decide) rfl rfl rfl rfl rfl
